import Mathlib

/-!
Shallow embedding of the FLYBYME/proxy data plane.

Sources embedded here:
  * src/types/models.ts            — Backend, RouteConfig, ProxyRequest
  * src/core/strategies/LoadBalancer.ts — round robin / random / ip-hash selection
  * src/core/Route.ts              — admission predicates, queue, failure marking, stop
  * src/core/Router.ts             — vHost → Route map, addRoute / removeRoute
  * src/core/Tracker.ts            — per-vHost stats
  * src/core/ProxyManager.ts       — dispatch / forward / finalizeRequest / pumpQueue
                                      and the upstream error handler

JavaScript numbers holding counters are modelled as `Int` (so that
`Math.max(0, x - 1)` is literal), sizes and timestamps as `Nat`, and the
EWMA latency as `ℚ`.  The 32-bit signed truncation performed by the JS
bitwise operators is explicit (`toInt32`).
-/

namespace Proxy

/-- models.ts: BalancingStrategy enum. -/
inductive BalancingStrategy
  | ROUND_ROBIN
  | IP_HASH
  | RANDOM
  | LEAST_LATENCY
deriving DecidableEq, Repr

/-- models.ts: Backend. `weight` is reserved and unused; omitted. -/
structure Backend where
  id : String
  hostname : String
  port : Nat
  isDead : Bool
  deadSince : Option Nat
  failureCount : Nat
deriving DecidableEq, Repr

/-- models.ts: RouteConfig (ssl/headers/timeouts kept abstract where unused). -/
structure RouteConfig where
  id : String
  vHost : String
  strategy : BalancingStrategy
  autoHttps : Bool
  reqQueueLength : Nat
  reqActiveLength : Nat
  backends : List Backend
  ssl : Option (String × String)
  timeout : Option Nat
  proxyTimeout : Option Nat
deriving DecidableEq, Repr

/-- models.ts: ProxyRequest. The raw req/res stream handles are not part of
the state; `meta.isEnded` is optional in the source and falsy when unset,
modelled as a `Bool` defaulting to `false`. -/
structure ProxyRequest where
  id : String
  startTime : Nat
  vHost : String
  clientIp : String
  targetId : Option String := none
  isEnded : Bool := false
deriving DecidableEq, Repr

/-! ## LoadBalancer.ts -/

/-- LoadBalancer.getAliveBackends: `this.backends.filter(b => !b.isDead)`. -/
def getAliveBackends (backends : List Backend) : List Backend :=
  backends.filter (fun b => !b.isDead)

/-- RoundRobinLoadBalancer.getNextBackend: returns `alive[counter % alive.length]`
and sets `counter = (counter + 1) % alive.length`; `null` when no backend is
alive. The pair is (picked backend, new counter). -/
def rrGetNextBackend (backends : List Backend) (counter : Nat) :
    Option Backend × Nat :=
  let alive := getAliveBackends backends
  if h : alive.length = 0 then (none, counter)
  else
    (some (alive.get ⟨counter % alive.length, Nat.mod_lt _ (Nat.pos_of_ne_zero h)⟩),
     (counter + 1) % alive.length)

/-- RandomLoadBalancer.getNextBackend: `Math.floor(Math.random() * alive.length)`
is some index in `[0, alive.length)`; the entropy source is modelled as an
arbitrary natural `rand` reduced mod the length. -/
def randomGetNextBackend (backends : List Backend) (rand : Nat) : Option Backend :=
  let alive := getAliveBackends backends
  if h : alive.length = 0 then none
  else some (alive.get ⟨rand % alive.length, Nat.mod_lt _ (Nat.pos_of_ne_zero h)⟩)

/-- Two's-complement truncation to a signed 32-bit integer, the effect of the
JS bitwise operators (`<<`, `&`) on a number. -/
def toInt32 (x : Int) : Int :=
  (x + 2 ^ 31) % 2 ^ 32 - 2 ^ 31

/-- One step of the ip-hash fold:
`hash = ((hash << 5) - hash) + char; hash = hash & hash`.
`hash << 5` truncates the shifted value to int32, and `hash & hash` truncates
the sum; between the two the arithmetic is exact. -/
def jsHashStep (hash : Int) (char : Nat) : Int :=
  toInt32 (toInt32 (hash * 32) - hash + char)

/-- IPHashLoadBalancer's per-character hash loop over the IP string
(charCodeAt on the ASCII characters of an IP equals the code point). -/
def jsHash (s : String) : Int :=
  s.data.foldl (fun h c => jsHashStep h c.toNat) 0

/-- IPHashLoadBalancer.getNextBackend: without a request context falls back to
`alive[0]`; otherwise hashes `req.meta.clientIp || '0.0.0.0'` and indexes
`Math.abs(hash) % alive.length`. -/
def ipHashGetNextBackend (backends : List Backend) (req : Option ProxyRequest) :
    Option Backend :=
  let alive := getAliveBackends backends
  if h : alive.length = 0 then none
  else
    match req with
    | none => some (alive.get ⟨0, Nat.pos_of_ne_zero h⟩)
    | some r =>
      let ip := if r.clientIp = "" then "0.0.0.0" else r.clientIp
      some (alive.get ⟨(jsHash ip).natAbs % alive.length,
        Nat.mod_lt _ (Nat.pos_of_ne_zero h)⟩)

/-- The load-balancer object: one variant per strategy class, the round-robin
variant carrying its counter. -/
inductive LBState
  | roundRobin (counter : Nat)
  | random
  | ipHash
deriving DecidableEq, Repr

/-- Route.createLoadBalancer: LEAST_LATENCY falls into the default branch and
gets a RoundRobinLoadBalancer. -/
def createLoadBalancer (strategy : BalancingStrategy) : LBState :=
  match strategy with
  | .ROUND_ROBIN => .roundRobin 0
  | .RANDOM => .random
  | .IP_HASH => .ipHash
  | .LEAST_LATENCY => .roundRobin 0

/-- Dynamic dispatch of getNextBackend over the three strategy classes.
`rand` feeds the random strategy only. -/
def lbGetNextBackend (lb : LBState) (backends : List Backend)
    (req : Option ProxyRequest) (rand : Nat) : Option Backend × LBState :=
  match lb with
  | .roundRobin c =>
    let p := rrGetNextBackend backends c
    (p.1, .roundRobin p.2)
  | .random => (randomGetNextBackend backends rand, .random)
  | .ipHash => (ipHashGetNextBackend backends req, .ipHash)

/-! ## Route.ts -/

/-- Route.markBackendFailure: find the first backend with the given id,
increment `failureCount`, and when the new count reaches 3 set
`isDead = true` and `deadSince = Date.now()` (the current time `now`).
Note the source re-runs the threshold branch on every further failure, so
`deadSince` is re-assigned each time. -/
def markBackendFailure (now : Nat) : List Backend → String → List Backend
  | [], _ => []
  | b :: bs, backendId =>
    if b.id = backendId then
      let b1 := { b with failureCount := b.failureCount + 1 }
      let b2 := if b1.failureCount ≥ 3 then
          { b1 with isDead := true, deadSince := some now }
        else b1
      b2 :: bs
    else b :: markBackendFailure now bs backendId

/-- Route runtime state: config, the load-balancer object, the FIFO queue
(holding request ids: the queue stores references to the shared ProxyRequest
objects, which live in the manager's store), the active counter, and whether
the quarantine-recheck interval is armed (set by the constructor through
startHealthCheck, cleared by stop). -/
structure RouteM where
  config : RouteConfig
  lb : LBState
  queue : List String
  activeRequests : Int
  healthCheckArmed : Bool
deriving DecidableEq, Repr

/-- Route constructor: builds the load balancer for the strategy and starts
the health-check interval. -/
def mkRoute (config : RouteConfig) : RouteM :=
  { config := config
    lb := createLoadBalancer config.strategy
    queue := []
    activeRequests := 0
    healthCheckArmed := true }

/-- Route.canHandleRequest: `activeRequests < config.reqActiveLength`. -/
def canHandleRequest (r : RouteM) : Bool :=
  r.activeRequests < (r.config.reqActiveLength : Int)

/-- Route.canQueueRequest: `queue.length < config.reqQueueLength`. -/
def canQueueRequest (r : RouteM) : Bool :=
  r.queue.length < r.config.reqQueueLength

/-- Route.stop: clears the health-check interval. -/
def routeStop (r : RouteM) : RouteM :=
  { r with healthCheckArmed := false }

/-! ## Tracker.ts -/

/-- Tracker.RouteStats. Counters are JS numbers: `requestsActive` is the one
supplied with a `Math.max(0, ·)` floor, kept as `Int` to make the floor
meaningful; the EWMA latency is exact rational arithmetic. -/
structure RouteStats where
  requestsTotal : Nat
  requestsActive : Int
  errorsTotal : Nat
  avgLatencyMs : ℚ
deriving DecidableEq, Repr

/-- The zero stats record Tracker.getStats installs for a fresh vHost. -/
def initStats : RouteStats :=
  { requestsTotal := 0, requestsActive := 0, errorsTotal := 0, avgLatencyMs := 0 }

/-- The Tracker's `Map<string, RouteStats>` as an association list. -/
abbrev Tracker := List (String × RouteStats)

/-- Map lookup. -/
def findStats : Tracker → String → Option RouteStats
  | [], _ => none
  | (k, s) :: t, v => if k = v then some s else findStats t v

/-- Map set: replace the binding if present, else append. -/
def setStats : Tracker → String → RouteStats → Tracker
  | [], v, s => [(v, s)]
  | (k, s0) :: t, v, s =>
    if k = v then (v, s) :: t else (k, s0) :: setStats t v s

/-- Tracker.getStats: the stored stats, or the zero record it would install. -/
def getStats (t : Tracker) (vHost : String) : RouteStats :=
  (findStats t vHost).getD initStats

/-- Tracker.trackRequestStart: `requestsTotal++; requestsActive++`. -/
def trackRequestStart (t : Tracker) (vHost : String) : Tracker :=
  let s := getStats t vHost
  setStats t vHost
    { s with requestsTotal := s.requestsTotal + 1
             requestsActive := s.requestsActive + 1 }

/-- Tracker.trackRequestEnd at time `now`:
`requestsActive = max(0, requestsActive - 1)`; `errorsTotal++` on failure;
`avgLatencyMs = avgLatencyMs * 0.9 + duration * 0.1` with
`duration = now - req.startTime`. -/
def trackRequestEnd (t : Tracker) (req : ProxyRequest) (success : Bool)
    (now : Nat) : Tracker :=
  let s := getStats t req.vHost
  let duration : Int := (now : Int) - (req.startTime : Int)
  setStats t req.vHost
    { s with requestsActive := max 0 (s.requestsActive - 1)
             errorsTotal := if success then s.errorsTotal else s.errorsTotal + 1
             avgLatencyMs := s.avgLatencyMs * (9 / 10 : ℚ) + (duration : ℚ) * (1 / 10 : ℚ) }

/-- Tracker.trackError: `errorsTotal++`; the code is only logged. -/
def trackError (t : Tracker) (vHost : String) (_errorCode : String) : Tracker :=
  let s := getStats t vHost
  setStats t vHost { s with errorsTotal := s.errorsTotal + 1 }

/-- Tracker.removeStats: delete the binding. -/
def removeStats : Tracker → String → Tracker
  | [], _ => []
  | (k, s) :: t, v => if k = v then t else (k, s) :: removeStats t v

/-! ## Router.ts

The Router owns `routes : Map<string, Route>`.  Route objects displaced from
the map by `Map.set`, or removed by `Map.delete`, still exist on the heap
(their interval keeps running unless `stop` was called on them); the model
keeps those displaced objects in `orphans` so their timer state remains
observable. -/

structure RouterState where
  routes : List (String × RouteM)
  orphans : List RouteM
deriving DecidableEq, Repr

def routerInit : RouterState := { routes := [], orphans := [] }

/-- Map lookup on the routes map (Router.getRoute). -/
def findRoute : List (String × RouteM) → String → Option RouteM
  | [], _ => none
  | (k, r) :: t, v => if k = v then some r else findRoute t v

/-- Map set on the routes map: replace the binding if present, else append. -/
def setRoute : List (String × RouteM) → String → RouteM → List (String × RouteM)
  | [], v, r => [(v, r)]
  | (k, r0) :: t, v, r =>
    if k = v then (v, r) :: t else (k, r0) :: setRoute t v r

/-- Map delete on the routes map. -/
def delRoute : List (String × RouteM) → String → List (String × RouteM)
  | [], _ => []
  | (k, r) :: t, v => if k = v then t else (k, r) :: delRoute t v

/-- Router.addRoute: `const route = new Route(config); this.routes.set(config.vHost, route)`.
The source does not call `stop` on a Route it displaces: the displaced object
goes to the heap (`orphans`) unchanged. -/
def routerAddRoute (st : RouterState) (config : RouteConfig) : RouterState :=
  let route := mkRoute config
  { routes := setRoute st.routes config.vHost route
    orphans :=
      match findRoute st.routes config.vHost with
      | some old => st.orphans ++ [old]
      | none => st.orphans }

/-- Router.removeRoute: when present, `route.stop()` then delete; returns
whether a route was removed. The stopped object goes to the heap. -/
def routerRemoveRoute (st : RouterState) (vHost : String) : RouterState × Bool :=
  match findRoute st.routes vHost with
  | some route =>
    ({ routes := delRoute st.routes vHost
       orphans := st.orphans ++ [routeStop route] }, true)
  | none => (st, false)

/-! ## ProxyManager.ts — the per-route request engine

The manager-level claims are all per-Route, so the machine carries one Route
(`Router.getRoute(vHost)` is modelled as a vHost comparison against that
route), the Tracker, the heap of ProxyRequest objects created by
handleRequest (`store`, looked up by id — the source reaches them through
the `req.proxyRequest` back-reference), the FIFO of forwards scheduled by
`process.nextTick` (`pending`), and the log of responses written to clients.
The queue holds request ids: references into the store. -/

/-- A response body: either `res.end(<text>)` or
`res.end(JSON.stringify({ error, code, message }))`. -/
inductive Body
  | text (s : String)
  | json (error : String) (code : String) (message : String)
deriving DecidableEq, Repr

/-- One writeHead/end pair observed by a client. -/
structure SentResponse where
  status : Nat
  headers : List (String × String)
  body : Body
deriving DecidableEq, Repr

structure PMState where
  route : RouteM
  tracker : Tracker
  store : List ProxyRequest
  pending : List String
  responses : List SentResponse
deriving DecidableEq, Repr

/-- Fresh manager state for one configured route. -/
def pmInit (config : RouteConfig) : PMState :=
  { route := mkRoute config
    tracker := []
    store := []
    pending := []
    responses := [] }

/-- Heap lookup of a ProxyRequest by id. -/
def findReq : List ProxyRequest → String → Option ProxyRequest
  | [], _ => none
  | r :: t, i => if r.id = i then some r else findReq t i

/-- Mutate the heap object with the given id. -/
def updateReq (f : ProxyRequest → ProxyRequest) :
    List ProxyRequest → String → List ProxyRequest
  | [], _ => []
  | r :: t, i => if r.id = i then f r :: t else r :: updateReq f t i

def writeResponse (s : PMState) (resp : SentResponse) : PMState :=
  { s with responses := s.responses ++ [resp] }

/-- ProxyManager.forward: pick a backend (`route.getNextBackend(proxyReq)`);
with none, answer 503 and stop; otherwise `route.activeRequests++`, record
the target id on the request, `tracker.trackRequestStart`, arm the abort and
finish listeners, and hand the streams to the proxy primitive.  There is no
re-check of `canHandleRequest` here. -/
def forward (s : PMState) (reqId : String) (rand : Nat) : PMState :=
  match findReq s.store reqId with
  | none => s
  | some pr =>
    let picked := lbGetNextBackend s.route.lb s.route.config.backends (some pr) rand
    match picked.1 with
    | none =>
      writeResponse s
        { status := 503, headers := []
          body := .text "Service Unavailable - No Healthy Backends" }
    | some backend =>
      { s with
          route := { s.route with
                       activeRequests := s.route.activeRequests + 1
                       lb := picked.2 }
          store := updateReq (fun r => { r with targetId := some backend.id }) s.store reqId
          tracker := trackRequestStart s.tracker s.route.config.vHost }

/-- ProxyManager.dispatch: forward when `canHandleRequest`, else enqueue when
`canQueueRequest`, else shed: `tracker.trackError(vHost, 'QUEUE_FULL')`,
`writeHead(503, { 'Retry-After': '10' })`, `end('Server Busy')`. -/
def dispatch (s : PMState) (reqId : String) (rand : Nat) : PMState :=
  if canHandleRequest s.route then forward s reqId rand
  else if canQueueRequest s.route then
    { s with route := { s.route with queue := s.route.queue ++ [reqId] } }
  else
    let s1 := { s with tracker := trackError s.tracker s.route.config.vHost "QUEUE_FULL" }
    writeResponse s1
      { status := 503, headers := [("Retry-After", "10")], body := .text "Server Busy" }

/-- ProxyManager.handleRequest step 2–3 for a request whose Host resolved to
this route: install the fresh ProxyRequest on the heap and dispatch it. -/
def handleRequest (s : PMState) (pr : ProxyRequest) (rand : Nat) : PMState :=
  dispatch { s with store := s.store ++ [pr] } pr.id rand

/-- ProxyManager.pumpQueue's while loop:
`while (route.canHandleRequest() && route.getQueueLength() > 0)` dequeue and
schedule the forward with `process.nextTick`.  `activeRequests` — the value
`canHandleRequest` reads — is not modified anywhere in the loop body (the
scheduled forwards only run on later ticks), so the condition is evaluated
against the same counter on every iteration. -/
def pumpLoop (active : Int) (maxActive : Nat) :
    List String → List String → List String × List String
  | [], scheduled => ([], scheduled)
  | reqId :: rest, scheduled =>
    if active < (maxActive : Int) then
      pumpLoop active maxActive rest (scheduled ++ [reqId])
    else (reqId :: rest, scheduled)

/-- ProxyManager.pumpQueue on the machine state. -/
def pumpQueue (s : PMState) : PMState :=
  let out := pumpLoop s.route.activeRequests s.route.config.reqActiveLength
    s.route.queue []
  { s with
      route := { s.route with queue := out.1 }
      pending := s.pending ++ out.2 }

/-- Scheduler turn that runs the oldest `process.nextTick` thunk: a forward
scheduled by pumpQueue. -/
def runPending (s : PMState) (rand : Nat) : PMState :=
  match s.pending with
  | [] => s
  | reqId :: rest => forward { s with pending := rest } reqId rand

/-- ProxyManager.finalizeRequest: return if `meta.isEnded` is already set;
otherwise set it, drop the listeners, look the route up by the request's
vHost (absent → stop), `activeRequests = max(0, activeRequests - 1)`,
`tracker.trackRequestEnd`, `pumpQueue`. -/
def finalizeRequest (s : PMState) (reqId : String) (success : Bool)
    (now : Nat) : PMState :=
  match findReq s.store reqId with
  | none => s
  | some pr =>
    if pr.isEnded then s
    else
      let s1 := { s with store := updateReq (fun r => { r with isEnded := true }) s.store reqId }
      if pr.vHost = s.route.config.vHost then
        let s2 := { s1 with
          route := { s1.route with
                       activeRequests := max 0 (s1.route.activeRequests - 1) }
          tracker := trackRequestEnd s1.tracker pr success now }
        pumpQueue s2
      else s1

/-- `pat` occurs at the head of `l`. -/
def startsWithChars : List Char → List Char → Bool
  | [], _ => true
  | _ :: _, [] => false
  | p :: ps, c :: cs => p = c && startsWithChars ps cs

/-- `pat` occurs somewhere in `l`. -/
def containsChars (pat : List Char) : List Char → Bool
  | [] => startsWithChars pat []
  | c :: cs => startsWithChars pat (c :: cs) || containsChars pat cs

/-- JS `String.includes`: substring containment. -/
def strIncludes (s pat : String) : Bool :=
  containsChars pat.data s.data

/-- The handler's error classification:
`err.code === 'ECONNRESET' || err.code === 'ETIMEDOUT' || err.message.includes('timeout')`. -/
def isTimeoutClass (errCode : Option String) (errMessage : String) : Bool :=
  (errCode == some "ECONNRESET") || (errCode == some "ETIMEDOUT") ||
    strIncludes errMessage "timeout"

/-- The error response the handler writes when headers are still open:
504/`Gateway Timeout`/`UPSTREAM_TIMEOUT` for the timeout class, else
502/`Bad Gateway`/`UPSTREAM_ERROR`, with the JSON envelope. -/
def errorResponse (isTimeout : Bool) (errMessage : String) : SentResponse :=
  { status := if isTimeout then 504 else 502
    headers := [("Content-Type", "application/json")]
    body := .json (if isTimeout then "Gateway Timeout" else "Bad Gateway")
      (if isTimeout then "UPSTREAM_TIMEOUT" else "UPSTREAM_ERROR")
      errMessage }

/-- The 'error' handler bound on the proxy at manager construction.
`err.code`/`err.message` come in as `errCode`/`errMessage`; `prId` is the
`req.proxyRequest` back-reference (none when it was never attached);
`headersSent` is `res.headersSent` at the time the handler runs. -/
def onProxyError (s : PMState) (errCode : Option String) (errMessage : String)
    (prId : Option String) (headersSent : Bool) (now : Nat) : PMState :=
  let isTimeout := isTimeoutClass errCode errMessage
  let s1 :=
    match prId with
    | none => s
    | some reqId =>
      match findReq s.store reqId with
      | none => s
      | some pr =>
        let s0 :=
          if pr.vHost = s.route.config.vHost then
            match pr.targetId with
            | some targetId =>
              { s with route := { s.route with config := { s.route.config with
                  backends := markBackendFailure now s.route.config.backends targetId } } }
            | none => s
          else s
        finalizeRequest s0 reqId false now
  if headersSent then s1
  else writeResponse s1 (errorResponse isTimeout errMessage)

/-- One scheduler event of the per-route engine. -/
inductive MOp
  /-- A client request for this route arrives (handleRequest → dispatch). -/
  | arrive (pr : ProxyRequest) (rand : Nat)
  /-- The next `process.nextTick` forward runs. -/
  | tick (rand : Nat)
  /-- The response 'finish' event fires for a request: finalize with
  `success = statusCode < 500`. -/
  | finish (reqId : String) (statusCode : Nat) (now : Nat)
  /-- The client 'aborted' event fires: finalize with failure. -/
  | abort (reqId : String) (now : Nat)
  /-- The proxy 'error' event fires. -/
  | upstreamError (errCode : Option String) (errMessage : String)
      (prId : Option String) (headersSent : Bool) (now : Nat)

def stepOp (s : PMState) : MOp → PMState
  | .arrive pr rand => handleRequest s pr rand
  | .tick rand => runPending s rand
  | .finish reqId statusCode now =>
    finalizeRequest s reqId (decide (statusCode < 500)) now
  | .abort reqId now => finalizeRequest s reqId false now
  | .upstreamError c m p h now => onProxyError s c m p h now

def runOps (s : PMState) (ops : List MOp) : PMState :=
  ops.foldl stepOp s

/-- A window of `k` consecutive round-robin picks over a fixed backend list,
threading the counter exactly as RoundRobinLoadBalancer.getNextBackend does. -/
def rrRun (backends : List Backend) (counter : Nat) : Nat → List (Option Backend)
  | 0 => []
  | k + 1 =>
    let p := rrGetNextBackend backends counter
    p.1 :: rrRun backends p.2 k

/-- One call of the Tracker's public mutating API. -/
inductive TrackerOp
  | start (vHost : String)
  | finish (req : ProxyRequest) (success : Bool) (now : Nat)
  | error (vHost : String) (code : String)
  | remove (vHost : String)

def applyTrackerOp (t : Tracker) : TrackerOp → Tracker
  | .start v => trackRequestStart t v
  | .finish r sc now => trackRequestEnd t r sc now
  | .error v c => trackError t v c
  | .remove v => removeStats t v

/-- A fresh Tracker after an arbitrary call sequence. -/
def runTracker (ops : List TrackerOp) : Tracker :=
  ops.foldl applyTrackerOp []

/-! ## Shared lemmas about the map operations -/

theorem findRoute_setRoute (m : List (String × RouteM)) (v : String) (r : RouteM) :
    findRoute (setRoute m v r) v = some r := by
  induction m with
  | nil => simp [setRoute, findRoute]
  | cons hd tl ih =>
    by_cases h : hd.1 = v
    · simp [setRoute, findRoute, h]
    · simp [setRoute, findRoute, h, ih]

theorem getStats_setStats (t : Tracker) (v : String) (x : RouteStats) :
    getStats (setStats t v x) v = x := by
  induction t with
  | nil => simp [setStats, getStats, findStats]
  | cons hd tl ih =>
    by_cases h : hd.1 = v
    · simp [setStats, getStats, findStats, h]
    · simpa [setStats, getStats, findStats, h] using ih

theorem findReq_updateReq (f : ProxyRequest → ProxyRequest)
    (store : List ProxyRequest) (i : String) (hf : ∀ r, (f r).id = r.id) :
    findReq (updateReq f store i) i = (findReq store i).map f := by
  induction store with
  | nil => simp [updateReq, findReq]
  | cons hd tl ih =>
    by_cases h : hd.id = i
    · simp [updateReq, findReq, h, hf]
    · simp [updateReq, findReq, h, ih]

/-! ## C1 — the admission/queue invariant `activeRequests ≤ maxActive`

`pumpQueue`'s loop condition reads `route.activeRequests`, but the forwards
it schedules only increment that counter on later `process.nextTick` turns,
so a single pump drains the entire queue whenever one slot is free, and the
deferred forwards then push `activeRequests` beyond `reqActiveLength`.  The
trace below is spec §8 scenario 4 (`maxActive = 1`, `maxQueued = 2`): one
active request, two queued; the active one finishes; the two pumped
forwards run. -/

def c1Backend : Backend :=
  { id := "b1", hostname := "127.0.0.1", port := 9001
    isDead := false, deadSince := none, failureCount := 0 }

def c1Config : RouteConfig :=
  { id := "t1", vHost := "t1.local", strategy := .ROUND_ROBIN
    autoHttps := false, reqQueueLength := 2, reqActiveLength := 1
    backends := [c1Backend], ssl := none, timeout := none, proxyTimeout := none }

def c1Req (i : String) : ProxyRequest :=
  { id := i, startTime := 0, vHost := "t1.local", clientIp := "10.0.0.1" }

def c1Ops : List MOp :=
  [ .arrive (c1Req "r1") 0, .arrive (c1Req "r2") 0, .arrive (c1Req "r3") 0,
    .finish "r1" 200 50, .tick 0, .tick 0 ]

/-- C1: the claim `0 ≤ activeRequests ≤ maxActive at every point outside the
atomic admission region` fails on the code.  After the scheduling history
`c1Ops` (admit r1; queue r2, r3; r1 finishes and pumps; the two scheduled
forwards run) the route holds `activeRequests = 2` while
`reqActiveLength = 1`, with an empty queue and no pending forwards left. -/
theorem C1_pump_exceeds_maxActive :
    (runOps (pmInit c1Config) c1Ops).route.activeRequests = 2 ∧
    c1Config.reqActiveLength = 1 ∧
    ¬ ((runOps (pmInit c1Config) c1Ops).route.activeRequests ≤
        (c1Config.reqActiveLength : Int)) ∧
    (runOps (pmInit c1Config) c1Ops).route.queue = [] ∧
    (runOps (pmInit c1Config) c1Ops).pending = [] := by
  refine ⟨by decide, by decide, by decide, by decide, by decide⟩

/-! ## C2 — markBackendFailure on an already-quarantined backend

`Route.markBackendFailure` re-runs the threshold branch on every failure:
once `failureCount ≥ 3` each further call re-assigns
`deadSince = Date.now()`.  The spec's `deadSince` is *not* kept. -/

def c2Backend : Backend :=
  { id := "b1", hostname := "h1", port := 80
    isDead := true, deadSince := some 100, failureCount := 3 }

/-- C2 counterexample: a backend quarantined at time 100 (failureCount = 3)
receives a further markFailure at time 200; the code re-sets `deadSince`
to 200, contradicting the claim that `deadSince` keeps its original value. -/
theorem C2_deadSince_is_reset :
    c2Backend.deadSince = some 100 ∧
    (markBackendFailure 200 [c2Backend] "b1").map Backend.deadSince = [some 200] := by
  refine ⟨rfl, by decide⟩

/-- C2 (amended): for a backend already past the quarantine threshold
(`failureCount ≥ 3`, hence `isDead`), a further `markFailure` of its id
increments `failureCount` by one AND re-sets `deadSince` to the current
time; it does not preserve the original quarantine timestamp. -/
theorem C2_markFailure_after_quarantine (pre : List Backend) (b : Backend)
    (rest : List Backend) (now : Nat)
    (hpre : ∀ x ∈ pre, x.id ≠ b.id) (hcnt : 3 ≤ b.failureCount) :
    markBackendFailure now (pre ++ b :: rest) b.id =
      pre ++ { b with failureCount := b.failureCount + 1,
                      isDead := true, deadSince := some now } :: rest := by
  induction pre with
  | nil =>
    have h3 : b.failureCount + 1 ≥ 3 := by omega
    simp [markBackendFailure, h3]
  | cons x xs ih =>
    have hx : x.id ≠ b.id := hpre x (List.mem_cons_self x xs)
    have ih' := ih (fun y hy => hpre y (List.mem_cons_of_mem x hy))
    simp [markBackendFailure, hx, ih']

def c2Other : Backend :=
  { id := "b0", hostname := "h0", port := 80
    isDead := false, deadSince := none, failureCount := 0 }

/-- C2 witness: the amended statement at a concrete two-backend list. -/
theorem C2_markFailure_after_quarantine_witness :
    markBackendFailure 500 [c2Other, c2Backend] "b1" =
      [c2Other,
       { c2Backend with failureCount := 4, isDead := true, deadSince := some 500 }] :=
  C2_markFailure_after_quarantine [c2Other] c2Backend [] 500
    (by decide) (by decide)

/-! ## C3 — addRoute and the displaced Route

`Router.addRoute` builds the new Route and overwrites the map binding; it
never calls `stop()` on the Route it displaces, so the displaced object's
quarantine-recheck interval keeps running. -/

def c3ConfigA : RouteConfig :=
  { id := "a", vHost := "example.com", strategy := .ROUND_ROBIN
    autoHttps := false, reqQueueLength := 10, reqActiveLength := 5
    backends := [], ssl := none, timeout := none, proxyTimeout := none }

def c3ConfigB : RouteConfig :=
  { id := "b", vHost := "example.com", strategy := .RANDOM
    autoHttps := false, reqQueueLength := 20, reqActiveLength := 7
    backends := [], ssl := none, timeout := none, proxyTimeout := none }

/-- C3 counterexample: install a Route for `example.com`, then addRoute a
second config for the same vHost.  The displaced Route still has its
health-check interval armed — `stop()` was not applied to it, contradicting
the claim. -/
theorem C3_old_route_not_stopped :
    (routerAddRoute (routerAddRoute routerInit c3ConfigA) c3ConfigB).orphans =
      [mkRoute c3ConfigA] ∧
    (mkRoute c3ConfigA).healthCheckArmed = true ∧
    (routeStop (mkRoute c3ConfigA)).healthCheckArmed = false := by
  refine ⟨by decide, rfl, rfl⟩

/-- C3 (amended): `addRoute(config)` replaces the mapping for the vHost with
a Route built from `config`; the previously mapped Route is displaced
*unchanged* — `stop()` is not applied to it and its recheck timer stays
armed exactly as it was. -/
theorem C3_addRoute_replaces_without_stop (st : RouterState)
    (config : RouteConfig) (old : RouteM)
    (hold : findRoute st.routes config.vHost = some old) :
    findRoute (routerAddRoute st config).routes config.vHost =
      some (mkRoute config) ∧
    (routerAddRoute st config).orphans = st.orphans ++ [old] := by
  constructor
  · simpa [routerAddRoute] using
      findRoute_setRoute st.routes config.vHost (mkRoute config)
  · simp [routerAddRoute, hold]

/-! ## Finalize: closed form and idempotence (C4) -/

/-- Closed form of one effective `finalizeRequest` run: the request is found,
not yet ended, and its route is present.  The run latches `isEnded`,
applies the floor-guarded decrement, records the end in the tracker, and
pumps the queue. -/
theorem finalizeRequest_eq (s : PMState) (reqId : String) (succ : Bool)
    (now : Nat) (pr : ProxyRequest)
    (hfind : findReq s.store reqId = some pr) (hend : pr.isEnded = false)
    (hvh : pr.vHost = s.route.config.vHost) :
    finalizeRequest s reqId succ now =
      pumpQueue { s with
        store := updateReq (fun r => { r with isEnded := true }) s.store reqId
        route := { s.route with
                     activeRequests := max 0 (s.route.activeRequests - 1) }
        tracker := trackRequestEnd s.tracker pr succ now } := by
  simp only [finalizeRequest, hfind, hend, hvh, Bool.false_eq_true, if_false, if_true]

/-- C4: finalize is idempotent.  For a request that is in flight (found in
the store, not yet ended, route present), a second finalize — with any
success flag and any timestamp, i.e. any combination of abort, finish, and
upstream-error edges — leaves the state of the first one untouched; and the
single effective run decrements `activeRequests` exactly once (floor-guarded)
and runs the tracker's onEnd exactly once. -/
theorem C4_finalize_idempotent (s : PMState) (reqId : String)
    (succ1 succ2 : Bool) (n1 n2 : Nat) (pr : ProxyRequest)
    (hfind : findReq s.store reqId = some pr) (hend : pr.isEnded = false)
    (hvh : pr.vHost = s.route.config.vHost) :
    finalizeRequest (finalizeRequest s reqId succ1 n1) reqId succ2 n2 =
      finalizeRequest s reqId succ1 n1 ∧
    (finalizeRequest s reqId succ1 n1).route.activeRequests =
      max 0 (s.route.activeRequests - 1) ∧
    (finalizeRequest s reqId succ1 n1).tracker =
      trackRequestEnd s.tracker pr succ1 n1 := by
  have hF := finalizeRequest_eq s reqId succ1 n1 pr hfind hend hvh
  have hstore : (finalizeRequest s reqId succ1 n1).store =
      updateReq (fun r => { r with isEnded := true }) s.store reqId := by
    rw [hF]; rfl
  have hfind2 : findReq (finalizeRequest s reqId succ1 n1).store reqId =
      some { pr with isEnded := true } := by
    rw [hstore,
      findReq_updateReq (fun r => { r with isEnded := true }) s.store reqId
        (fun r => rfl),
      hfind]
    rfl
  refine ⟨?_, by rw [hF]; rfl, by rw [hF]; rfl⟩
  set F := finalizeRequest s reqId succ1 n1 with hFdef
  simp [finalizeRequest, hfind2]

def c4Backend : Backend :=
  { id := "b1", hostname := "h", port := 80
    isDead := false, deadSince := none, failureCount := 0 }

def c4Config : RouteConfig :=
  { id := "r", vHost := "v.local", strategy := .ROUND_ROBIN
    autoHttps := false, reqQueueLength := 4, reqActiveLength := 2
    backends := [c4Backend], ssl := none, timeout := none, proxyTimeout := none }

def c4Req : ProxyRequest :=
  { id := "q1", startTime := 10, vHost := "v.local", clientIp := "9.9.9.9"
    targetId := some "b1", isEnded := false }

def c4State : PMState :=
  { route := { mkRoute c4Config with activeRequests := 1 }
    tracker := [("v.local",
      { requestsTotal := 1, requestsActive := 1, errorsTotal := 0, avgLatencyMs := 0 })]
    store := [c4Req]
    pending := []
    responses := [] }

/-- C4 witness: a double finalize (finish at t=60, then a late abort at
t=70) on a concrete in-flight request. -/
theorem C4_finalize_idempotent_witness :
    finalizeRequest (finalizeRequest c4State "q1" true 60) "q1" false 70 =
      finalizeRequest c4State "q1" true 60 ∧
    (finalizeRequest c4State "q1" true 60).route.activeRequests =
      max 0 (c4State.route.activeRequests - 1) ∧
    (finalizeRequest c4State "q1" true 60).tracker =
      trackRequestEnd c4State.tracker c4Req true 60 :=
  C4_finalize_idempotent c4State "q1" true false 60 70 c4Req
    (by decide) rfl rfl

/-! ## C7 — queue-full shedding -/

/-- C7: when a request is admitted on a route with neither active capacity
nor queue capacity, dispatch writes exactly one 503 response with header
`Retry-After: 10` and body `Server Busy`, records a QUEUE_FULL tracker error
(`errorsTotal` for the vHost goes up by one, `requestsTotal` and
`requestsActive` untouched), and leaves the route (active counter and
queue) and the request store (hence every `isEnded` latch — no finalize)
unchanged. -/
theorem C7_queue_full_shed (s : PMState) (reqId : String) (rand : Nat)
    (h1 : canHandleRequest s.route = false)
    (h2 : canQueueRequest s.route = false) :
    dispatch s reqId rand =
      { s with
          tracker := trackError s.tracker s.route.config.vHost "QUEUE_FULL"
          responses := s.responses ++
            [{ status := 503, headers := [("Retry-After", "10")]
               body := Body.text "Server Busy" }] } ∧
    getStats (dispatch s reqId rand).tracker s.route.config.vHost =
      { getStats s.tracker s.route.config.vHost with
          errorsTotal := (getStats s.tracker s.route.config.vHost).errorsTotal + 1 } ∧
    (dispatch s reqId rand).route = s.route ∧
    (dispatch s reqId rand).store = s.store := by
  have hd : dispatch s reqId rand =
      { s with
          tracker := trackError s.tracker s.route.config.vHost "QUEUE_FULL"
          responses := s.responses ++
            [{ status := 503, headers := [("Retry-After", "10")]
               body := Body.text "Server Busy" }] } := by
    simp [dispatch, h1, h2, writeResponse]
  refine ⟨hd, ?_, by rw [hd], by rw [hd]⟩
  rw [hd]
  simp [trackError, getStats_setStats]

def c7Config : RouteConfig :=
  { id := "c7", vHost := "c7.local", strategy := .ROUND_ROBIN
    autoHttps := false, reqQueueLength := 1, reqActiveLength := 1
    backends := [], ssl := none, timeout := none, proxyTimeout := none }

def c7State : PMState :=
  { route := { mkRoute c7Config with activeRequests := 1, queue := ["q0"] }
    tracker := []
    store := []
    pending := []
    responses := [] }

/-- C7 witness: a saturated concrete route (1 active of max 1, 1 queued of
max 1) shedding an incoming request. -/
theorem C7_queue_full_shed_witness :
    dispatch c7State "x9" 0 =
      { c7State with
          tracker := trackError c7State.tracker c7State.route.config.vHost "QUEUE_FULL"
          responses := c7State.responses ++
            [{ status := 503, headers := [("Retry-After", "10")]
               body := Body.text "Server Busy" }] } ∧
    getStats (dispatch c7State "x9" 0).tracker c7State.route.config.vHost =
      { getStats c7State.tracker c7State.route.config.vHost with
          errorsTotal := (getStats c7State.tracker c7State.route.config.vHost).errorsTotal + 1 } ∧
    (dispatch c7State "x9" 0).route = c7State.route ∧
    (dispatch c7State "x9" 0).store = c7State.store :=
  C7_queue_full_shed c7State "x9" 0 (by decide) (by decide)

/-! ## C8 — the upstream error handler -/

/-- C8: for an upstream error on an in-flight request (known back-reference,
not yet ended, route present) whose response headers are still unsent, the
handler appends exactly one response — 504/`Gateway Timeout`/`UPSTREAM_TIMEOUT`
precisely when the error code is ECONNRESET or ETIMEDOUT or the message
contains "timeout", else 502/`Bad Gateway`/`UPSTREAM_ERROR` — with the JSON
`{ error, code, message }` envelope; it finalizes the request with
`success = false` (isEnded latched, floor-guarded decrement, tracker onEnd),
and when the request carries a `targetId` that backend is credited a failure
through markBackendFailure. -/
theorem C8_upstream_error (s : PMState) (errCode : Option String)
    (errMessage : String) (reqId : String) (now : Nat) (pr : ProxyRequest)
    (hfind : findReq s.store reqId = some pr) (hend : pr.isEnded = false)
    (hvh : pr.vHost = s.route.config.vHost) :
    (onProxyError s errCode errMessage (some reqId) false now).responses =
      s.responses ++ [errorResponse (isTimeoutClass errCode errMessage) errMessage] ∧
    (isTimeoutClass errCode errMessage = true ↔
      (errCode = some "ECONNRESET" ∨ errCode = some "ETIMEDOUT" ∨
        strIncludes errMessage "timeout" = true)) ∧
    findReq (onProxyError s errCode errMessage (some reqId) false now).store reqId =
      some { pr with isEnded := true } ∧
    (onProxyError s errCode errMessage (some reqId) false now).tracker =
      trackRequestEnd s.tracker pr false now ∧
    (onProxyError s errCode errMessage (some reqId) false now).route.activeRequests =
      max 0 (s.route.activeRequests - 1) ∧
    (onProxyError s errCode errMessage (some reqId) false now).route.config.backends =
      (match pr.targetId with
       | some t => markBackendFailure now s.route.config.backends t
       | none => s.route.config.backends) := by
  have hstore : findReq (updateReq (fun r => { r with isEnded := true }) s.store reqId)
      reqId = some { pr with isEnded := true } := by
    rw [findReq_updateReq (fun r => { r with isEnded := true }) s.store reqId
      (fun r => rfl), hfind]
    rfl
  have hiff : isTimeoutClass errCode errMessage = true ↔
      (errCode = some "ECONNRESET" ∨ errCode = some "ETIMEDOUT" ∨
        strIncludes errMessage "timeout" = true) := by
    simp [isTimeoutClass, Bool.or_eq_true, beq_iff_eq, or_assoc]
  cases htid : pr.targetId with
  | some t =>
    have hA : onProxyError s errCode errMessage (some reqId) false now =
        writeResponse
          (pumpQueue
            { s with
                store := updateReq (fun r => { r with isEnded := true }) s.store reqId
                route := { s.route with
                             config := { s.route.config with
                               backends := markBackendFailure now s.route.config.backends t }
                             activeRequests := max 0 (s.route.activeRequests - 1) }
                tracker := trackRequestEnd s.tracker pr false now })
          (errorResponse (isTimeoutClass errCode errMessage) errMessage) := by
      have hA0 : onProxyError s errCode errMessage (some reqId) false now =
          writeResponse
            (finalizeRequest
              { s with route := { s.route with config := { s.route.config with
                  backends := markBackendFailure now s.route.config.backends t } } }
              reqId false now)
            (errorResponse (isTimeoutClass errCode errMessage) errMessage) := by
        simp [onProxyError, hfind, htid, hvh]
      rw [hA0, finalizeRequest_eq
        { s with route := { s.route with config := { s.route.config with
            backends := markBackendFailure now s.route.config.backends t } } }
        reqId false now pr hfind hend hvh]
    refine ⟨by rw [hA]; rfl, hiff, ?_, by rw [hA]; rfl, by rw [hA]; rfl,
      by rw [hA]; rfl⟩
    rw [htid] at hstore
    rw [hA]
    exact hstore
  | none =>
    have hA : onProxyError s errCode errMessage (some reqId) false now =
        writeResponse
          (pumpQueue
            { s with
                store := updateReq (fun r => { r with isEnded := true }) s.store reqId
                route := { s.route with
                             activeRequests := max 0 (s.route.activeRequests - 1) }
                tracker := trackRequestEnd s.tracker pr false now })
          (errorResponse (isTimeoutClass errCode errMessage) errMessage) := by
      have hA0 : onProxyError s errCode errMessage (some reqId) false now =
          writeResponse (finalizeRequest s reqId false now)
            (errorResponse (isTimeoutClass errCode errMessage) errMessage) := by
        simp [onProxyError, hfind, htid, hvh]
      rw [hA0, finalizeRequest_eq s reqId false now pr hfind hend hvh]
    refine ⟨by rw [hA]; rfl, hiff, ?_, by rw [hA]; rfl, by rw [hA]; rfl,
      by rw [hA]; rfl⟩
    rw [htid] at hstore
    rw [hA]
    exact hstore

def c8Backend : Backend :=
  { id := "b1", hostname := "h", port := 80
    isDead := false, deadSince := none, failureCount := 2 }

def c8Config : RouteConfig :=
  { id := "c8", vHost := "c8.local", strategy := .ROUND_ROBIN
    autoHttps := false, reqQueueLength := 4, reqActiveLength := 2
    backends := [c8Backend], ssl := none, timeout := none, proxyTimeout := none }

def c8Req : ProxyRequest :=
  { id := "q1", startTime := 40, vHost := "c8.local", clientIp := "8.8.8.8"
    targetId := some "b1", isEnded := false }

def c8State : PMState :=
  { route := { mkRoute c8Config with activeRequests := 1 }
    tracker := []
    store := [c8Req]
    pending := []
    responses := [] }

/-- C8 witness: an ECONNRESET upstream error on a concrete in-flight request
holding a target backend. -/
theorem C8_upstream_error_witness :
    (onProxyError c8State (some "ECONNRESET") "read ECONNRESET" (some "q1") false 99).responses =
      c8State.responses ++
        [errorResponse (isTimeoutClass (some "ECONNRESET") "read ECONNRESET") "read ECONNRESET"] ∧
    (isTimeoutClass (some "ECONNRESET") "read ECONNRESET" = true ↔
      (some "ECONNRESET" = some "ECONNRESET" ∨ some "ECONNRESET" = some "ETIMEDOUT" ∨
        strIncludes "read ECONNRESET" "timeout" = true)) ∧
    findReq (onProxyError c8State (some "ECONNRESET") "read ECONNRESET" (some "q1") false 99).store "q1" =
      some { c8Req with isEnded := true } ∧
    (onProxyError c8State (some "ECONNRESET") "read ECONNRESET" (some "q1") false 99).tracker =
      trackRequestEnd c8State.tracker c8Req false 99 ∧
    (onProxyError c8State (some "ECONNRESET") "read ECONNRESET" (some "q1") false 99).route.activeRequests =
      max 0 (c8State.route.activeRequests - 1) ∧
    (onProxyError c8State (some "ECONNRESET") "read ECONNRESET" (some "q1") false 99).route.config.backends =
      markBackendFailure 99 c8State.route.config.backends "b1" :=
  C8_upstream_error c8State (some "ECONNRESET") "read ECONNRESET" "q1" 99 c8Req
    (by decide) rfl rfl

/-- C3 witness: the amended statement on a concrete one-route router. -/
theorem C3_addRoute_replaces_without_stop_witness :
    findRoute (routerAddRoute (routerAddRoute routerInit c3ConfigA)
        c3ConfigB).routes "example.com" = some (mkRoute c3ConfigB) ∧
    (routerAddRoute (routerAddRoute routerInit c3ConfigA) c3ConfigB).orphans =
      (routerAddRoute routerInit c3ConfigA).orphans ++ [mkRoute c3ConfigA] :=
  C3_addRoute_replaces_without_stop (routerAddRoute routerInit c3ConfigA)
    c3ConfigB (mkRoute c3ConfigA) (by decide)

/-! ## C9 — Tracker onEnd and the nonnegative active count -/

/-- Every stats record held by the tracker has a nonnegative active count. -/
def trackerNonneg (t : Tracker) : Prop :=
  ∀ e ∈ t, 0 ≤ e.2.requestsActive

theorem trackerNonneg_setStats (t : Tracker) (v : String) (x : RouteStats)
    (ht : trackerNonneg t) (hx : 0 ≤ x.requestsActive) :
    trackerNonneg (setStats t v x) := by
  induction t with
  | nil =>
    intro e he
    simp [setStats] at he
    simp [he, hx]
  | cons hd tl ih =>
    rcases hd with ⟨k, s0⟩
    intro e he
    by_cases h : k = v
    · simp only [setStats, if_pos h] at he
      rcases List.mem_cons.mp he with h1 | h1
      · simp [h1, hx]
      · exact ht _ (List.mem_cons_of_mem _ h1)
    · simp only [setStats, if_neg h] at he
      rcases List.mem_cons.mp he with h1 | h1
      · exact h1 ▸ ht _ (List.mem_cons_self _ _)
      · exact ih (fun e2 he2 => ht e2 (List.mem_cons_of_mem _ he2)) e h1

theorem getStats_nonneg (t : Tracker) (v : String) (ht : trackerNonneg t) :
    0 ≤ (getStats t v).requestsActive := by
  induction t with
  | nil => simp [getStats, findStats, initStats]
  | cons hd tl ih =>
    rcases hd with ⟨k, s0⟩
    by_cases h : k = v
    · simpa [getStats, findStats, h] using ht _ (List.mem_cons_self _ _)
    · simpa [getStats, findStats, h] using
        ih (fun e he => ht e (List.mem_cons_of_mem _ he))

theorem trackerNonneg_removeStats (t : Tracker) (v : String)
    (ht : trackerNonneg t) : trackerNonneg (removeStats t v) := by
  induction t with
  | nil => intro e he; simp [removeStats] at he
  | cons hd tl ih =>
    rcases hd with ⟨k, s0⟩
    intro e he
    by_cases h : k = v
    · exact ht e (List.mem_cons_of_mem _ (by simpa [removeStats, h] using he))
    · simp only [removeStats, if_neg h] at he
      rcases List.mem_cons.mp he with h1 | h1
      · exact h1 ▸ ht _ (List.mem_cons_self _ _)
      · exact ih (fun e2 he2 => ht e2 (List.mem_cons_of_mem _ he2)) e h1

theorem trackerNonneg_applyOp (t : Tracker) (op : TrackerOp)
    (ht : trackerNonneg t) : trackerNonneg (applyTrackerOp t op) := by
  cases op with
  | start v =>
    refine trackerNonneg_setStats t v _ ht ?_
    have := getStats_nonneg t v ht
    simp only []
    omega
  | finish r sc now =>
    refine trackerNonneg_setStats t r.vHost _ ht ?_
    exact le_max_left 0 _
  | error v c =>
    refine trackerNonneg_setStats t v _ ht ?_
    simpa using getStats_nonneg t v ht
  | remove v => exact trackerNonneg_removeStats t v ht

theorem trackerNonneg_foldl (ops : List TrackerOp) (t : Tracker)
    (ht : trackerNonneg t) : trackerNonneg (ops.foldl applyTrackerOp t) := by
  induction ops generalizing t with
  | nil => exact ht
  | cons op rest ih => exact ih _ (trackerNonneg_applyOp t op ht)

/-- C9: `trackRequestEnd` applies exactly the specified update to the
request's vHost entry — `requestsActive = max(0, requestsActive - 1)`,
`errorsTotal` incremented iff the request failed, and the latency EWMA
`0.9·avg + 0.1·(now - startTime)` — and after every call sequence on a
fresh Tracker every entry's `requestsActive` is nonnegative (double
finalizes included: the floor keeps it at 0). -/
theorem C9_trackEnd_and_floor (t : Tracker) (req : ProxyRequest)
    (success : Bool) (now : Nat) (ops : List TrackerOp)
    (e : String × RouteStats) (he : e ∈ runTracker ops) :
    getStats (trackRequestEnd t req success now) req.vHost =
      { getStats t req.vHost with
          requestsActive := max 0 ((getStats t req.vHost).requestsActive - 1)
          errorsTotal := if success then (getStats t req.vHost).errorsTotal
            else (getStats t req.vHost).errorsTotal + 1
          avgLatencyMs := (9 / 10 : ℚ) * (getStats t req.vHost).avgLatencyMs +
            (1 / 10 : ℚ) * ((now : ℚ) - (req.startTime : ℚ)) } ∧
    0 ≤ e.2.requestsActive := by
  constructor
  · rw [trackRequestEnd, getStats_setStats]
    have hcast : (((now : Int) - (req.startTime : Int) : Int) : ℚ) =
        (now : ℚ) - (req.startTime : ℚ) := by push_cast; ring
    simp only [RouteStats.mk.injEq, hcast]
    refine ⟨trivial, trivial, trivial, by ring⟩
  · have h0 : trackerNonneg ([] : Tracker) := by intro e2 he2; simp at he2
    exact trackerNonneg_foldl ops [] h0 e he

def c9Req : ProxyRequest :=
  { id := "z", startTime := 100, vHost := "w.local", clientIp := "1.1.1.1" }

def c9T : Tracker :=
  [("w.local",
    { requestsTotal := 5, requestsActive := 2, errorsTotal := 1, avgLatencyMs := 10 })]

def c9Ops : List TrackerOp :=
  [.start "a", .start "a", .finish c9Req false 160, .error "a" "X"]

def c9Entry : String × RouteStats :=
  ("a", { requestsTotal := 2, requestsActive := 2, errorsTotal := 1, avgLatencyMs := 0 })

/-- C9 witness: a concrete onEnd (failure at t=160 of a request started at
t=100) plus a concrete op sequence containing an unmatched finish (the
double-finalize shape) whose entries all stay nonnegative. -/
theorem C9_trackEnd_and_floor_witness :
    getStats (trackRequestEnd c9T c9Req false 160) c9Req.vHost =
      { getStats c9T c9Req.vHost with
          requestsActive := max 0 ((getStats c9T c9Req.vHost).requestsActive - 1)
          errorsTotal := if false then (getStats c9T c9Req.vHost).errorsTotal
            else (getStats c9T c9Req.vHost).errorsTotal + 1
          avgLatencyMs := (9 / 10 : ℚ) * (getStats c9T c9Req.vHost).avgLatencyMs +
            (1 / 10 : ℚ) * ((160 : ℚ) - (c9Req.startTime : ℚ)) } ∧
    0 ≤ c9Entry.2.requestsActive :=
  C9_trackEnd_and_floor c9T c9Req false 160 c9Ops c9Entry (by decide)

/-! ## C10 — ip-hash fallback without request; empty alive set -/

/-- C10: with a non-empty alive subset, the ip-hash strategy called without a
request context returns the first alive backend in list order (not none);
and with an empty alive subset every strategy's pick returns none. -/
theorem C10_fallback_and_empty (backends deadList : List Backend)
    (lb : LBState) (req : Option ProxyRequest) (rand : Nat)
    (halive : 0 < (getAliveBackends backends).length)
    (hdead : getAliveBackends deadList = []) :
    ipHashGetNextBackend backends none =
      some ((getAliveBackends backends).get ⟨0, halive⟩) ∧
    (lbGetNextBackend lb deadList req rand).1 = none := by
  constructor
  · rw [ipHashGetNextBackend]
    simp only [dif_neg (Nat.pos_iff_ne_zero.mp halive)]
  · cases lb with
    | roundRobin c => simp [lbGetNextBackend, rrGetNextBackend, hdead]
    | random => simp [lbGetNextBackend, randomGetNextBackend, hdead]
    | ipHash => simp [lbGetNextBackend, ipHashGetNextBackend, hdead]

def c10Alive : Backend :=
  { id := "a1", hostname := "ha", port := 81, isDead := false
    deadSince := none, failureCount := 0 }

def c10Dead : Backend :=
  { id := "d1", hostname := "hd", port := 82, isDead := true
    deadSince := some 7, failureCount := 3 }

/-- C10 witness: a list with one dead then one alive backend (no-request
pick returns the alive one), and an all-dead list (round-robin pick is
none). -/
theorem C10_fallback_and_empty_witness :
    ipHashGetNextBackend [c10Dead, c10Alive] none =
      some ((getAliveBackends [c10Dead, c10Alive]).get ⟨0, by decide⟩) ∧
    (lbGetNextBackend (.roundRobin 0) [c10Dead] none 0).1 = none :=
  C10_fallback_and_empty [c10Dead, c10Alive] [c10Dead] (.roundRobin 0) none 0
    (by decide) (by decide)

/-! ## C6 — ip-hash formula and determinism -/

/-- C6: with a request and a non-empty alive set, the ip-hash pick indexes
`Math.abs(jsHash ip) % |alive|` where `ip` is the client IP (or `0.0.0.0`
when the client IP is empty/unset); hence two picks that agree on the
client IP and see the same backend list return the same backend. -/
theorem C6_ipHash_formula_deterministic (backends : List Backend)
    (r r2 : ProxyRequest)
    (h : 0 < (getAliveBackends backends).length)
    (hip : r.clientIp = r2.clientIp) :
    ipHashGetNextBackend backends (some r) =
      some ((getAliveBackends backends).get
        ⟨(jsHash (if r.clientIp = "" then "0.0.0.0" else r.clientIp)).natAbs %
            (getAliveBackends backends).length, Nat.mod_lt _ h⟩) ∧
    ipHashGetNextBackend backends (some r) =
      ipHashGetNextBackend backends (some r2) := by
  constructor
  · rw [ipHashGetNextBackend]
    simp only [dif_neg (Nat.pos_iff_ne_zero.mp h)]
  · rw [ipHashGetNextBackend, ipHashGetNextBackend]
    simp only [hip]

def c6B1 : Backend :=
  { id := "b1", hostname := "h1", port := 3000, isDead := false
    deadSince := none, failureCount := 0 }

def c6B2 : Backend :=
  { id := "b2", hostname := "h2", port := 3001, isDead := false
    deadSince := none, failureCount := 0 }

def c6ReqA : ProxyRequest :=
  { id := "rA", startTime := 0, vHost := "v", clientIp := "192.168.1.77" }

def c6ReqB : ProxyRequest :=
  { id := "rB", startTime := 99, vHost := "v", clientIp := "192.168.1.77" }

/-- C6 witness: two distinct requests from the same client IP over a
two-backend list. -/
theorem C6_ipHash_formula_deterministic_witness :
    ipHashGetNextBackend [c6B1, c6B2] (some c6ReqA) =
      some ((getAliveBackends [c6B1, c6B2]).get
        ⟨(jsHash (if c6ReqA.clientIp = "" then "0.0.0.0" else c6ReqA.clientIp)).natAbs %
            (getAliveBackends [c6B1, c6B2]).length, Nat.mod_lt _ (by decide)⟩) ∧
    ipHashGetNextBackend [c6B1, c6B2] (some c6ReqA) =
      ipHashGetNextBackend [c6B1, c6B2] (some c6ReqB) :=
  C6_ipHash_formula_deterministic [c6B1, c6B2] c6ReqA c6ReqB (by decide) rfl

/-! ## C5 — round-robin: per-pick formula and window fairness

The arithmetic core: among `k` consecutive counter values starting anywhere,
each residue class mod `n` is hit `⌊k/n⌋` or `⌈k/n⌉` times
(`⌈k/n⌉ = (k + n - 1) / n` in Nat division). -/

theorem mod_two_cases (a n : Nat) (hn : 0 < n) (h : a < 2 * n) :
    a % n = if a < n then a else a - n := by
  split
  · exact Nat.mod_eq_of_lt (by assumption)
  · have h1 : n ≤ a := le_of_not_lt (by assumption)
    rw [Nat.mod_eq_sub_mod h1, Nat.mod_eq_of_lt (by omega)]

theorem mod_shift_iff (n r u i : Nat) (hn : 0 < n) (hr : r < n) (hu : u < n)
    (hi : i < n) : ((r + u) % n = i ↔ u = (i + n - r) % n) := by
  rw [mod_two_cases (r + u) n hn (by omega),
    mod_two_cases (i + n - r) n hn (by omega)]
  split <;> split <;> omega

theorem countP_range_exact (n c i : Nat) (hn : 0 < n) (hi : i < n) :
    (List.range n).countP (fun t => decide ((c + t) % n = i)) = 1 := by
  have ht0lt : (i + n - c % n) % n < n := Nat.mod_lt _ hn
  have hcong : ∀ t ∈ List.range n,
      ((fun t => decide ((c + t) % n = i)) t = true ↔
        ((fun t => t == (i + n - c % n) % n) t = true)) := by
    intro t ht
    have htlt : t < n := List.mem_range.mp ht
    have hmod : (c + t) % n = (c % n + t) % n := by
      conv_lhs => rw [Nat.add_mod]
      rw [Nat.mod_eq_of_lt htlt]
    simp only [decide_eq_true_eq, beq_iff_eq]
    rw [hmod]
    exact mod_shift_iff n (c % n) t i hn (Nat.mod_lt _ hn) htlt hi
  rw [List.countP_congr hcong]
  have : (List.range n).countP (fun t => t == (i + n - c % n) % n) =
      (List.range n).count ((i + n - c % n) % n) := rfl
  rw [this]
  exact List.count_eq_one_of_mem (List.nodup_range n) (List.mem_range.mpr ht0lt)

theorem countP_range_window (n c i : Nat) (hn : 0 < n) (hi : i < n) (k : Nat) :
    (List.range k).countP (fun t => decide ((c + t) % n = i)) = k / n ∨
    (List.range k).countP (fun t => decide ((c + t) % n = i)) = (k + n - 1) / n := by
  induction k using Nat.strong_induction_on with
  | _ k ih =>
    by_cases hk : k < n
    · have hsub : List.Sublist (List.range k) (List.range n) :=
        List.range_sublist.mpr (le_of_lt hk)
      have hle : (List.range k).countP (fun t => decide ((c + t) % n = i)) ≤ 1 := by
        have h2 := hsub.countP_le (fun t => decide ((c + t) % n = i))
        rwa [countP_range_exact n c i hn hi] at h2
      have h0 : k / n = 0 := Nat.div_eq_of_lt hk
      rcases Nat.le_one_iff_eq_zero_or_eq_one.mp hle with h | h
      · left; rw [h, h0]
      · right
        rw [h]
        have hk1 : 1 ≤ k := by
          by_contra hc
          have hk0 : k = 0 := by omega
          rw [hk0] at h
          simp at h
        have hceil : (k + n - 1) / n = 1 := by
          have hsplit : k + n - 1 = (k - 1) + n := by omega
          rw [hsplit, Nat.add_div_right _ hn, Nat.div_eq_of_lt (by omega)]
        rw [hceil]
    · have hk' : n ≤ k := le_of_not_lt hk
      have hsplit : k = n + (k - n) := by omega
      rw [hsplit, List.range_add, List.countP_append,
        countP_range_exact n c i hn hi, List.countP_map]
      have hcomp : ∀ t ∈ List.range (k - n),
          (((fun t => decide ((c + t) % n = i)) ∘ (n + ·)) t = true ↔
            ((fun t => decide ((c + t) % n = i)) t = true)) := by
        intro t _
        simp only [Function.comp_apply, decide_eq_true_eq]
        have : (c + (n + t)) % n = (c + t) % n := by
          have h3 : c + (n + t) = n + (c + t) := by omega
          rw [h3, Nat.add_mod_left]
        rw [this]
      rw [List.countP_congr hcomp]
      have hdiv : (n + (k - n)) / n = (k - n) / n + 1 := by
        rw [Nat.add_comm n (k - n), Nat.add_div_right _ hn]
      have hdivc : (n + (k - n) + n - 1) / n = ((k - n) + n - 1) / n + 1 := by
        have h4 : n + (k - n) + n - 1 = ((k - n) + n - 1) + n := by omega
        rw [h4, Nat.add_div_right _ hn]
      rcases ih (k - n) (by omega) with h | h
      · left; rw [h, hdiv]; omega
      · right; rw [h, hdivc]; omega

theorem rrGetNextBackend_pos (backends : List Backend) (c : Nat)
    (h : (getAliveBackends backends).length ≠ 0) :
    rrGetNextBackend backends c =
      (some ((getAliveBackends backends).get
         ⟨c % (getAliveBackends backends).length,
          Nat.mod_lt _ (Nat.pos_of_ne_zero h)⟩),
       (c + 1) % (getAliveBackends backends).length) := by
  rw [rrGetNextBackend]
  simp only [dif_neg h]

/-- The `k` picks of a round-robin window are the alive entries at `k`
consecutive counter positions mod the alive count. -/
theorem rrRun_eq_map (backends : List Backend)
    (h : (getAliveBackends backends).length ≠ 0) (k : Nat) : ∀ c,
    rrRun backends c k = (List.range k).map
      (fun t => (getAliveBackends backends).get?
        ((c + t) % (getAliveBackends backends).length)) := by
  induction k with
  | zero => intro c; rfl
  | succ k ih =>
    intro c
    have hpos : 0 < (getAliveBackends backends).length := Nat.pos_of_ne_zero h
    simp only [rrRun, rrGetNextBackend_pos backends c h]
    rw [ih ((c + 1) % (getAliveBackends backends).length),
      List.range_succ_eq_map, List.map_cons, List.map_map]
    congr 1
    · rw [← List.get?_eq_get (Nat.mod_lt _ hpos)]
      congr 1
    · refine List.map_congr_left ?_
      intro t _
      simp only [Function.comp_apply]
      congr 1
      rw [Nat.mod_add_mod]
      congr 1
      omega

/-- C5: with a non-empty alive subset, each round-robin pick returns
`alive[counter % n]` and sets the counter to `(counter + 1) % n`; and over
any window of `k` consecutive picks with the alive list fixed (and its
entries distinct), the backend at each alive index is returned `⌊k/n⌋` or
`⌈k/n⌉ = (k + n - 1)/n` times. -/
theorem C5_roundRobin_window (backends : List Backend) (counter k i : Nat)
    (hn : 0 < (getAliveBackends backends).length)
    (hi : i < (getAliveBackends backends).length)
    (hnd : (getAliveBackends backends).Nodup) :
    rrGetNextBackend backends counter =
      (some ((getAliveBackends backends).get
         ⟨counter % (getAliveBackends backends).length, Nat.mod_lt _ hn⟩),
       (counter + 1) % (getAliveBackends backends).length) ∧
    ((rrRun backends counter k).count
        (some ((getAliveBackends backends).get ⟨i, hi⟩)) =
          k / (getAliveBackends backends).length ∨
     (rrRun backends counter k).count
        (some ((getAliveBackends backends).get ⟨i, hi⟩)) =
          (k + (getAliveBackends backends).length - 1) /
            (getAliveBackends backends).length) := by
  have hne : (getAliveBackends backends).length ≠ 0 := Nat.pos_iff_ne_zero.mp hn
  constructor
  · exact rrGetNextBackend_pos backends counter hne
  · rw [rrRun_eq_map backends hne k counter, ← List.get?_eq_get hi]
    have hcount : ((List.range k).map
        (fun t => (getAliveBackends backends).get?
          ((counter + t) % (getAliveBackends backends).length))).count
          ((getAliveBackends backends).get? i) =
        (List.range k).countP
          (fun t => decide ((counter + t) %
            (getAliveBackends backends).length = i)) := by
      rw [List.count, List.countP_map]
      refine List.countP_congr ?_
      intro t _
      simp only [Function.comp_apply, beq_iff_eq, decide_eq_true_eq]
      constructor
      · intro hduq
        exact List.get?_inj (Nat.mod_lt _ hn) hnd hduq
      · intro hduq
        rw [hduq]
    rw [hcount]
    exact countP_range_window (getAliveBackends backends).length counter i hn hi k

def c5B1 : Backend :=
  { id := "b1", hostname := "h1", port := 4000, isDead := false
    deadSince := none, failureCount := 0 }

def c5B2 : Backend :=
  { id := "b2", hostname := "h2", port := 4001, isDead := false
    deadSince := none, failureCount := 0 }

/-- C5 witness: a two-backend alive list, counter 1, a window of 5 picks,
counting the picks of the backend at alive index 0. -/
theorem C5_roundRobin_window_witness :
    rrGetNextBackend [c5B1, c5B2] 1 =
      (some ((getAliveBackends [c5B1, c5B2]).get
         ⟨1 % (getAliveBackends [c5B1, c5B2]).length, Nat.mod_lt _ (by decide)⟩),
       (1 + 1) % (getAliveBackends [c5B1, c5B2]).length) ∧
    ((rrRun [c5B1, c5B2] 1 5).count
        (some ((getAliveBackends [c5B1, c5B2]).get ⟨0, by decide⟩)) =
          5 / (getAliveBackends [c5B1, c5B2]).length ∨
     (rrRun [c5B1, c5B2] 1 5).count
        (some ((getAliveBackends [c5B1, c5B2]).get ⟨0, by decide⟩)) =
          (5 + (getAliveBackends [c5B1, c5B2]).length - 1) /
            (getAliveBackends [c5B1, c5B2]).length) :=
  C5_roundRobin_window [c5B1, c5B2] 1 5 0 (by decide) (by decide) (by decide)

end Proxy